import Mathlib

set_option autoImplicit false

/-! Shallow embedding of the todo-app CRUD service (src/main.go): the Task
data model with its validator tags, the five Fiber route handlers, and the
tasks table their SQL statements run against. Timestamps are naturals, the
database table is a list of stored rows whose columns other than the key
may be NULL, and each handler is a pure function from the parsed request
and the table state to an HTTP response plus the next state. A `fault`
flag models a statement failing at the database (connection loss,
timeout). -/

namespace TodoApp

/-- The `Task` struct of src/main.go as decoded from or encoded to JSON.
Validator tags: `Title` is required with length 3..100, `Description` has
length at most 500, `Status` is one of todo, in_progress, done; `ID`
carries `validate:"-"` and the timestamps carry no tag. -/
structure Task where
  ID : Int
  Title : String
  Description : String
  Status : String
  CreatedAt : Nat
  UpdatedAt : Nat
  deriving DecidableEq

/-- One row of the `tasks` table. Every column other than the primary key
may be NULL, since the schema lives outside the program; a NULL is what
makes `rows.Scan` into the Go struct fail. -/
structure StoredRow where
  id : Int
  title : Option String
  description : Option String
  status : Option String
  created_at : Option Nat
  updated_at : Option Nat
  deriving DecidableEq

/-- The database state: the `tasks` table plus the sequence backing its
serial primary key. -/
structure DB where
  rows : List StoredRow
  nextId : Int
  deriving DecidableEq

/-- Reachable table states: the serial sequence is positive and strictly
ahead of every existing id, and ids are pairwise distinct (primary key). -/
def DB.WF (s : DB) : Prop :=
  0 < s.nextId ∧ (∀ r ∈ s.rows, r.id < s.nextId) ∧
    (s.rows.map StoredRow.id).Nodup

/-- A response body as the handlers produce it: `c.JSON` of a Go struct
is an object, of a non-nil slice an array, of a nil slice the literal
`null`; `fiber.NewError` carries a message and `SendStatus(204)` sends no
content. -/
inductive Body where
  | empty : Body
  | obj : Task → Body
  | arr : List Task → Body
  | null : Body
  | message : String → Body
  deriving DecidableEq

/-- An HTTP response: status code and JSON body. -/
structure Response where
  status : Nat
  body : Body
  deriving DecidableEq

/-- `validate.Struct` on a `Task`, read off the struct tags of
src/main.go: `required,min=3,max=100` on `Title`, `max=500` on
`Description`, `oneof=todo in_progress done` on `Status`. -/
def validateStruct (t : Task) : Bool :=
  (t.Title != "" && 3 ≤ t.Title.length && t.Title.length ≤ 100) &&
  t.Description.length ≤ 500 &&
  (t.Status == "todo" || t.Status == "in_progress" || t.Status == "done")

/-- Value of a nonempty run of decimal digits, `none` on any other
character. -/
def digitsVal (acc : Nat) : List Char → Option Nat
  | [] => some acc
  | c :: cs => if c.isDigit then digitsVal (acc * 10 + (c.toNat - 48)) cs else none

/-- At least one decimal digit, then `digitsVal`. -/
def parseNatDigits : List Char → Option Nat
  | [] => none
  | c :: cs => if c.isDigit then digitsVal (c.toNat - 48) cs else none

/-- How the raw `:id` path parameter fares when handed to the database as
`$1` against the integer `id` column: an optionally signed decimal
literal yields its value, anything else makes the statement fail. -/
def parseId (s : String) : Option Int :=
  match s.data with
  | [] => none
  | '-' :: cs => (parseNatDigits cs).map (fun n => -(n : Int))
  | '+' :: cs => (parseNatDigits cs).map (fun n => (n : Int))
  | cs => (parseNatDigits cs).map (fun n => (n : Int))

/-- `rows.Scan` / `QueryRow(...).Scan` of one stored row into the Go
`Task` struct: fails exactly when some column is NULL, because the Go
field types admit no NULL. -/
def scanRow (r : StoredRow) : Option Task :=
  match r.title, r.description, r.status, r.created_at, r.updated_at with
  | some t, some d, some st, some c, some u => some ⟨r.id, t, d, st, c, u⟩
  | _, _, _, _, _ => none

/-- `createTask` (src/main.go:84): validate the parsed body, then INSERT
the three client fields, the table defaults assigning the id and setting
both timestamps to the current time, RETURNING them into the struct that
is echoed with status 201. `fault` models the INSERT failing at the
database. -/
def createTask (fault : Bool) (now : Nat) (s : DB) (task : Task) : Response × DB :=
  if !(validateStruct task) then
    (⟨400, Body.message "validation error"⟩, s)
  else if fault then
    (⟨500, Body.message "Failed to create task"⟩, s)
  else
    let row : StoredRow :=
      ⟨s.nextId, some task.Title, some task.Description, some task.Status,
        some now, some now⟩
    let echoed : Task :=
      { task with ID := s.nextId, CreatedAt := now, UpdatedAt := now }
    (⟨201, Body.obj echoed⟩, ⟨s.rows ++ [row], s.nextId + 1⟩)

/-- The scan loop of `getTasks`: a row whose Scan fails is skipped with
`continue` after logging, the others are appended in order. -/
def scanLoop : List StoredRow → List Task → List Task
  | [], acc => acc
  | r :: rs, acc =>
    match scanRow r with
    | none => scanLoop rs acc
    | some t => scanLoop rs (acc ++ [t])

/-- `getTasks` (src/main.go:106): SELECT every row and scan each, skipping
failures; `c.JSON` of the resulting slice, which Go marshals as `null`
when it is still nil because no row was appended. -/
def getTasks (fault : Bool) (s : DB) : Response :=
  if fault then ⟨500, Body.message "Failed to fetch tasks"⟩
  else
    let tasks := scanLoop s.rows []
    ⟨200, if tasks.isEmpty then Body.null else Body.arr tasks⟩

/-- The single-row lookup of `getTaskByID`: the statement fails on a
database fault or a malformed id, `QueryRow` yields no row when nothing
matches, and the Scan itself can fail on a NULL column. -/
def queryRowById (fault : Bool) (s : DB) (idParam : String) : Option Task :=
  if fault then none
  else
    match parseId idParam with
    | none => none
    | some n =>
      match s.rows.find? (fun r => r.id == n) with
      | none => none
      | some r => scanRow r

/-- `getTaskByID` (src/main.go:128): any error from the query or the scan
is answered 404. -/
def getTaskByID (fault : Bool) (s : DB) (idParam : String) : Response :=
  match queryRowById fault s idParam with
  | none => ⟨404, Body.message "Task not found"⟩
  | some t => ⟨200, Body.obj t⟩

/-- The SET clause of the UPDATE in `updateTask`, applied to a matching
row: the three mutable columns and `updated_at=now()`. -/
def applyUpdate (task : Task) (now : Nat) (r : StoredRow) : StoredRow :=
  { r with title := some task.Title, description := some task.Description,
           status := some task.Status, updated_at := some now }

/-- `updateTask` (src/main.go:143): validate the parsed body, then UPDATE
the three mutable columns and `updated_at=now()` on the matching row,
RETURNING the fresh `updated_at` into the parsed struct. Every statement
error — a database fault, a malformed id, or no matching row — is
answered 500. The 200 response echoes the parsed body with only
`UpdatedAt` overwritten, so its `ID` and `CreatedAt` are whatever the
request carried. -/
def updateTask (fault : Bool) (now : Nat) (s : DB) (idParam : String) (task : Task) :
    Response × DB :=
  if !(validateStruct task) then
    (⟨400, Body.message "validation error"⟩, s)
  else if fault then
    (⟨500, Body.message "Failed to update task"⟩, s)
  else
    match parseId idParam with
    | none => (⟨500, Body.message "Failed to update task"⟩, s)
    | some n =>
      match s.rows.find? (fun r => r.id == n) with
      | none => (⟨500, Body.message "Failed to update task"⟩, s)
      | some _ =>
        let rows2 := s.rows.map (fun r => if r.id == n then applyUpdate task now r else r)
        (⟨200, Body.obj { task with UpdatedAt := now }⟩, ⟨rows2, s.nextId⟩)

/-- `deleteTask` (src/main.go:167): DELETE WHERE id=$1 with no existence
check; only a statement failure (database fault, malformed id) is an
error, and success is 204 with no content. -/
def deleteTask (fault : Bool) (s : DB) (idParam : String) : Response × DB :=
  if fault then (⟨500, Body.message "Failed to delete task"⟩, s)
  else
    match parseId idParam with
    | none => (⟨500, Body.message "Failed to delete task"⟩, s)
    | some n =>
      (⟨204, Body.empty⟩, ⟨s.rows.filter (fun r => !(r.id == n)), s.nextId⟩)

/-- The task list carried by a response body, the `null` encoding of the
empty list included. -/
def bodyTasks (resp : Response) : List Task :=
  match resp.body with
  | Body.arr ts => ts
  | _ => []

/-! Helper lemmas shared by the claim theorems. -/

/-- A row filter that rejects nothing leaves the table unchanged. -/
theorem filter_no_match (n : Int) (l : List StoredRow)
    (h : ∀ r ∈ l, r.id ≠ n) :
    l.filter (fun r => !(r.id == n)) = l := by
  refine List.filter_eq_self.mpr ?_
  intro r hr
  simpa using h r hr

/-- Searching for a fresh id in a table all of whose ids are below it
finds exactly the row appended with that id. -/
theorem find_fresh (n : Int) (row : StoredRow) (l : List StoredRow)
    (hrow : row.id = n) (h : ∀ r ∈ l, r.id < n) :
    List.find? (fun r => r.id == n) (l ++ [row]) = some row := by
  induction l with
  | nil => simp [List.find?, hrow]
  | cons a as ih =>
    have ha : a.id ≠ n := Int.ne_of_lt (h a (by simp))
    have hfa : (a.id == n) = false := by simpa using ha
    simpa [List.find?, hfa] using ih (fun r hr => h r (by simp [hr]))

/-- The `getTasks` scan loop accumulates exactly the rows that decode. -/
theorem scanLoop_eq_filterMap (l : List StoredRow) (acc : List Task) :
    scanLoop l acc = acc ++ l.filterMap scanRow := by
  induction l generalizing acc with
  | nil => simp [scanLoop]
  | cons r rs ih =>
    cases h : scanRow r with
    | none => simp [scanLoop, h, ih]
    | some t => simp [scanLoop, h, ih]

/-! Claim theorems. -/

/-- C2: a payload that fails validation makes create answer 400 and
leaves the stored state untouched — no row is persisted. -/
theorem c2_invalid_create_rejected (fault : Bool) (now : Nat) (s : DB) (p : Task)
    (hv : validateStruct p = false) :
    (createTask fault now s p).1.status = 400 ∧ (createTask fault now s p).2 = s := by
  simp [createTask, hv]

/-- C2 witness: a title of length 2 is rejected with 400 and the state is
unchanged. -/
theorem c2_invalid_create_rejected_witness :
    (createTask false 7 ⟨[], 1⟩ ⟨0, "ab", "", "todo", 0, 0⟩).1.status = 400 ∧
    (createTask false 7 ⟨[], 1⟩ ⟨0, "ab", "", "todo", 0, 0⟩).2 = ⟨[], 1⟩ :=
  c2_invalid_create_rejected false 7 ⟨[], 1⟩ ⟨0, "ab", "", "todo", 0, 0⟩ (by decide)

/-- C7: deleting an id that matches no stored row succeeds with 204 and
no content, and the stored state is unchanged. -/
theorem c7_delete_missing_id (s : DB) (idStr : String) (n : Int)
    (hid : parseId idStr = some n) (hmiss : ∀ r ∈ s.rows, r.id ≠ n) :
    deleteTask false s idStr = (⟨204, Body.empty⟩, s) := by
  obtain ⟨rows, nid⟩ := s
  simp only [deleteTask, Bool.false_eq_true, if_false, hid]
  rw [filter_no_match n rows hmiss]

/-- C7 witness: deleting id 2 from a table holding only id 1 answers 204
and leaves the table as it was. -/
theorem c7_delete_missing_id_witness :
    deleteTask false ⟨[⟨1, some "a", some "", some "todo", some 0, some 0⟩], 2⟩ "2"
      = (⟨204, Body.empty⟩, ⟨[⟨1, some "a", some "", some "todo", some 0, some 0⟩], 2⟩) :=
  c7_delete_missing_id ⟨[⟨1, some "a", some "", some "todo", some 0, some 0⟩], 2⟩ "2" 2
    (by decide) (by decide)

/-- C8: on an empty table, GET /tasks answers 200 with the JSON literal
`null` — the nil slice — and never with an array, empty included. -/
theorem c8_empty_list_is_null (nid : Int) :
    getTasks false ⟨[], nid⟩ = ⟨200, Body.null⟩ ∧
    ∀ ts : List Task, getTasks false ⟨[], nid⟩ ≠ ⟨200, Body.arr ts⟩ := by
  constructor
  · simp [getTasks, scanLoop]
  · intro ts h
    simp [getTasks, scanLoop] at h

/-- C9: a path id that is not a well-formed integer makes GET /tasks/:id
answer 404 — the raw string reaches the query and the resulting error is
mapped to not found — never 400. -/
theorem c9_malformed_id_404 (fault : Bool) (s : DB) (idStr : String)
    (hbad : parseId idStr = none) :
    getTaskByID fault s idStr = ⟨404, Body.message "Task not found"⟩ ∧
    (getTaskByID fault s idStr).status ≠ 400 := by
  cases fault <;> simp [getTaskByID, queryRowById, hbad]

/-- C9 witness: GET /tasks/abc answers 404, not 400. -/
theorem c9_malformed_id_404_witness :
    getTaskByID false ⟨[], 1⟩ "abc" = ⟨404, Body.message "Task not found"⟩ ∧
    (getTaskByID false ⟨[], 1⟩ "abc").status ≠ 400 :=
  c9_malformed_id_404 false ⟨[], 1⟩ "abc" (by decide)

/-- C10: delete is idempotent — run twice on the same id it produces the
same response and the same final state as run once. -/
theorem c10_delete_idempotent (fault : Bool) (s : DB) (idStr : String) :
    deleteTask fault (deleteTask fault s idStr).2 idStr = deleteTask fault s idStr := by
  cases fault with
  | true => simp [deleteTask]
  | false =>
    cases hid : parseId idStr with
    | none => simp [deleteTask, hid]
    | some n =>
      simp only [deleteTask, Bool.false_eq_true, if_false, hid]
      rw [List.filter_filter]
      simp

/-- C6: listing tolerates undecodable rows: with the query itself
succeeding, GET /tasks answers 200 and its body carries exactly the
decodable rows of the table, in order — a row whose scan fails is
skipped, never failing the whole listing. -/
theorem c6_list_skips_bad_rows (s : DB) :
    (getTasks false s).status = 200 ∧
    bodyTasks (getTasks false s) = s.rows.filterMap scanRow := by
  have h := scanLoop_eq_filterMap s.rows []
  simp only [List.nil_append] at h
  constructor
  · simp [getTasks]
  · rcases hl : s.rows.filterMap scanRow with _ | ⟨t, ts⟩ <;>
      simp [getTasks, bodyTasks, h, hl]

/-- C4 counterexample: a persistence failure during get-by-id on an
existing, decodable row is answered 404, not the 500 the claim
requires. -/
theorem c4_counterexample :
    getTaskByID true ⟨[⟨1, some "a", some "", some "todo", some 0, some 0⟩], 2⟩ "1"
      = ⟨404, Body.message "Task not found"⟩ ∧
    (getTaskByID true ⟨[⟨1, some "a", some "", some "todo", some 0, some 0⟩], 2⟩ "1").status
      ≠ 500 := by
  decide

/-- C4 amended: get-by-id answers 404 exactly when the query or scan
yields no task — zero matching rows, but equally a malformed id, an
undecodable row or a persistence error — and it never answers 500; in
particular a database fault is answered 404. -/
theorem c4_get_errors_are_404 (fault : Bool) (s : DB) (idStr : String) :
    ((getTaskByID fault s idStr).status = 404 ↔ queryRowById fault s idStr = none) ∧
    (getTaskByID fault s idStr).status ≠ 500 ∧
    (getTaskByID true s idStr).status = 404 := by
  refine ⟨?_, ?_, ?_⟩
  · cases h : queryRowById fault s idStr <;> simp [getTaskByID, h]
  · cases h : queryRowById fault s idStr <;> simp [getTaskByID, h]
  · simp [getTaskByID, queryRowById]

/-- C3 counterexample: updating stored row 1 (created_at 5) with a body
whose id field is zero answers 200, but the response body's id is 0, not
the stored row id 1, and its created_at is 0, not the stored 5. -/
theorem c3_counterexample :
    (updateTask false 9
        ⟨[⟨1, some "Buy milk", some "2%", some "todo", some 5, some 5⟩], 2⟩
        "1" ⟨0, "Buy milk", "2%", "done", 0, 0⟩).1
      = ⟨200, Body.obj ⟨0, "Buy milk", "2%", "done", 0, 9⟩⟩ ∧
    (⟨0, "Buy milk", "2%", "done", 0, 9⟩ : Task).ID ≠ 1 ∧
    (⟨0, "Buy milk", "2%", "done", 0, 9⟩ : Task).CreatedAt ≠ 5 := by
  decide

/-- C3 amended: a successful PUT answers 200 with a body whose mutable
fields are the payload's and whose updated_at is the refreshed server
time, but whose id and created_at are echoed from the request payload
(zero-valued when absent), not read from the stored row. -/
theorem c3_put_echoes_payload (now : Nat) (s : DB) (idStr : String) (p : Task)
    (n : Int) (r : StoredRow)
    (hv : validateStruct p = true) (hid : parseId idStr = some n)
    (hfind : s.rows.find? (fun row => row.id == n) = some r) :
    (updateTask false now s idStr p).1
      = ⟨200, Body.obj { p with UpdatedAt := now }⟩ := by
  simp [updateTask, hv, hid, hfind]

/-- C3 witness: the amended response on a concrete existing row. -/
theorem c3_put_echoes_payload_witness :
    (updateTask false 9
        ⟨[⟨1, some "Buy milk", some "2%", some "todo", some 5, some 5⟩], 2⟩
        "1" ⟨0, "Buy milk", "2%", "done", 0, 0⟩).1
      = ⟨200, Body.obj ⟨0, "Buy milk", "2%", "done", 0, 9⟩⟩ :=
  c3_put_echoes_payload 9
    ⟨[⟨1, some "Buy milk", some "2%", some "todo", some 5, some 5⟩], 2⟩
    "1" ⟨0, "Buy milk", "2%", "done", 0, 0⟩ 1
    ⟨1, some "Buy milk", some "2%", some "todo", some 5, some 5⟩
    (by decide) (by decide) (by decide)

/-- C1: on a well-formed state, create with a valid payload answers 201
with a task echoing the client-supplied fields, a positive id and equal
timestamps, and get-by-id on the returned id then yields that very
task. -/
theorem c1_create_then_get (s : DB) (p : Task) (now : Nat) (idStr : String)
    (hwf : s.WF) (hv : validateStruct p = true)
    (hid : parseId idStr = some s.nextId) :
    ∃ t : Task,
      (createTask false now s p).1 = ⟨201, Body.obj t⟩ ∧
      getTaskByID false (createTask false now s p).2 idStr = ⟨200, Body.obj t⟩ ∧
      t.Title = p.Title ∧ t.Description = p.Description ∧ t.Status = p.Status ∧
      0 < t.ID ∧ t.CreatedAt = t.UpdatedAt := by
  obtain ⟨hpos, hlt, hnd⟩ := hwf
  refine ⟨{ p with ID := s.nextId, CreatedAt := now, UpdatedAt := now },
    ?_, ?_, rfl, rfl, rfl, hpos, rfl⟩
  · simp [createTask, hv]
  · have h2 : (createTask false now s p).2 =
        ⟨s.rows ++ [⟨s.nextId, some p.Title, some p.Description, some p.Status,
          some now, some now⟩], s.nextId + 1⟩ := by
      simp [createTask, hv]
    have hf := find_fresh s.nextId
      ⟨s.nextId, some p.Title, some p.Description, some p.Status, some now, some now⟩
      s.rows rfl hlt
    rw [h2]
    simp [getTaskByID, queryRowById, hid, hf, scanRow]

/-- C1 witness: create on the empty table with a concrete valid payload,
then get of id 1. -/
theorem c1_create_then_get_witness :
    ∃ t : Task,
      (createTask false 7 ⟨[], 1⟩ ⟨0, "abc", "", "todo", 0, 0⟩).1 = ⟨201, Body.obj t⟩ ∧
      getTaskByID false (createTask false 7 ⟨[], 1⟩ ⟨0, "abc", "", "todo", 0, 0⟩).2 "1"
        = ⟨200, Body.obj t⟩ ∧
      t.Title = "abc" ∧ t.Description = "" ∧ t.Status = "todo" ∧
      0 < t.ID ∧ t.CreatedAt = t.UpdatedAt :=
  c1_create_then_get ⟨[], 1⟩ ⟨0, "abc", "", "todo", 0, 0⟩ 7 "1"
    ⟨by decide, by decide, by decide⟩ (by decide) (by decide)

/-- C5: on a well-formed state, update on an existing id answers 200,
keeps the serial sequence and the table length, rewrites exactly the
three mutable columns plus updated_at on the matching row — its id and
created_at untouched, every other row identical — and the refreshed
updated_at strictly exceeds the row's previous value. -/
theorem c5_update_frame (s : DB) (p : Task) (now : Nat) (idStr : String)
    (n : Int) (r0 : StoredRow) (u : Nat)
    (hwf : s.WF) (hv : validateStruct p = true)
    (hid : parseId idStr = some n)
    (hfind : s.rows.find? (fun r => r.id == n) = some r0)
    (hu : r0.updated_at = some u) (hnow : u < now) :
    (updateTask false now s idStr p).1.status = 200 ∧
    (updateTask false now s idStr p).2.nextId = s.nextId ∧
    (updateTask false now s idStr p).2.rows.length = s.rows.length ∧
    ∀ i r, s.rows.get? i = some r →
      ∃ r2, (updateTask false now s idStr p).2.rows.get? i = some r2 ∧
        r2.id = r.id ∧ r2.created_at = r.created_at ∧
        (r.id ≠ n → r2 = r) ∧
        (r.id = n →
          r2.title = some p.Title ∧ r2.description = some p.Description ∧
          r2.status = some p.Status ∧ r2.updated_at = some now ∧
          r.updated_at = some u ∧ u < now) := by
  obtain ⟨hpos, hlt, hnd⟩ := hwf
  have h2 : (updateTask false now s idStr p).2 =
      ⟨s.rows.map (fun r => if r.id == n then applyUpdate p now r else r), s.nextId⟩ := by
    simp [updateTask, hv, hid, hfind]
  have hr0mem : r0 ∈ s.rows := List.mem_of_find?_eq_some hfind
  have hr0id : r0.id = n := by
    have := List.find?_some hfind
    simpa using this
  refine ⟨by simp [updateTask, hv, hid, hfind], by rw [h2], by rw [h2]; simp, ?_⟩
  intro i r hi
  have hrmem : r ∈ s.rows := List.get?_mem hi
  rw [h2]
  refine ⟨if r.id == n then applyUpdate p now r else r, ?_, ?_, ?_, ?_, ?_⟩
  · rw [List.get?_eq_getElem?] at hi ⊢
    rw [List.getElem?_map, hi]
    rfl
  · by_cases h : r.id = n <;> simp [applyUpdate, h]
  · by_cases h : r.id = n <;> simp [applyUpdate, h]
  · intro h
    simp [h]
  · intro h
    have hrr0 : r = r0 :=
      List.inj_on_of_nodup_map hnd hrmem hr0mem (by rw [h, hr0id])
    subst hrr0
    simp [applyUpdate, h, hu, hnow]

/-- C5 witness: updating the single stored row id 1 (updated_at 4) at
time 9 with a concrete valid payload. -/
theorem c5_update_frame_witness :
    (updateTask false 9 ⟨[⟨1, some "t1", some "", some "todo", some 3, some 4⟩], 2⟩
        "1" ⟨0, "abc", "", "done", 0, 0⟩).1.status = 200 ∧
    (updateTask false 9 ⟨[⟨1, some "t1", some "", some "todo", some 3, some 4⟩], 2⟩
        "1" ⟨0, "abc", "", "done", 0, 0⟩).2.nextId = 2 ∧
    (updateTask false 9 ⟨[⟨1, some "t1", some "", some "todo", some 3, some 4⟩], 2⟩
        "1" ⟨0, "abc", "", "done", 0, 0⟩).2.rows.length
      = [(⟨1, some "t1", some "", some "todo", some 3, some 4⟩ : StoredRow)].length ∧
    ∀ i r, [(⟨1, some "t1", some "", some "todo", some 3, some 4⟩ : StoredRow)].get? i
        = some r →
      ∃ r2, (updateTask false 9
          ⟨[⟨1, some "t1", some "", some "todo", some 3, some 4⟩], 2⟩
          "1" ⟨0, "abc", "", "done", 0, 0⟩).2.rows.get? i = some r2 ∧
        r2.id = r.id ∧ r2.created_at = r.created_at ∧
        (r.id ≠ 1 → r2 = r) ∧
        (r.id = 1 →
          r2.title = some "abc" ∧ r2.description = some "" ∧
          r2.status = some "done" ∧ r2.updated_at = some 9 ∧
          r.updated_at = some 4 ∧ 4 < 9) :=
  c5_update_frame ⟨[⟨1, some "t1", some "", some "todo", some 3, some 4⟩], 2⟩
    ⟨0, "abc", "", "done", 0, 0⟩ 9 "1" 1
    ⟨1, some "t1", some "", some "todo", some 3, some 4⟩ 4
    ⟨by decide, by decide, by decide⟩ (by decide) (by decide) (by decide)
    (by decide) (by decide)

end TodoApp
